import Mathlib

set_option maxHeartbeats 1000000

/-!
Shallow embedding of src/main.c of the vulkantest repository.

The program is a Vulkan initialization pipeline plus a single-frame render
loop. Driver calls are modelled by their visible inputs and outputs: a
driver-reported list becomes a Lean list argument, a fallible driver call
becomes a boolean outcome argument, and the machine-word constants of the
source (MAX_TMP_BUFFER, MAX_SWAPCHAIN_IMAGES, UINT32_MAX) are carried over
as natural-number constants. Resource acquisition and release are recorded
as explicit event traces so that leak and double-free questions become
questions about event counts.
-/

namespace VulkanTest

/-- MAX_TMP_BUFFER of src/main.c line 11: capacity of every enumeration buffer. -/
def MAX_TMP_BUFFER : Nat := 256

/-- MAX_SWAPCHAIN_IMAGES of src/main.c line 69: the fixed image-slot capacity. -/
def MAX_SWAPCHAIN_IMAGES : Nat := 10

/-- The C constant UINT32_MAX, used by the source both as the undefined-extent
sentinel and as the timeout argument of the frame fence wait. -/
def UINT32_MAX : Nat := 4294967295

/-- The C constant UINT64_MAX: the value a vkWaitForFences timeout must hold
for the wait to be unbounded (the timeout parameter is a uint64_t). -/
def UINT64_MAX : Nat := 18446744073709551615

structure VkExtent2D where
  width : Nat
  height : Nat
deriving DecidableEq

/-- The fields of VkSurfaceCapabilitiesKHR that vulkan_swapchain_create reads. -/
structure SurfaceCapabilities where
  currentExtent : VkExtent2D
  minImageExtent : VkExtent2D
  maxImageExtent : VkExtent2D
  minImageCount : Nat
  maxImageCount : Nat
deriving DecidableEq

/-- Extent selection inside vulkan_swapchain_create, src/main.c lines 453 to 479,
translated branch for branch. The width axis clamps into the min and max bounds;
note that the height axis of the source tests the candidate against min a second
time where the width axis tests against max (line 476). -/
def swapchain_image_extent (caps : SurfaceCapabilities) (fbWidth fbHeight : Nat) :
    VkExtent2D :=
  if caps.currentExtent.width ≠ UINT32_MAX then
    caps.currentExtent
  else
    let wmin := caps.minImageExtent.width
    let wmax := caps.maxImageExtent.width
    let w := if fbWidth < wmin then wmin else if fbWidth > wmax then wmax else fbWidth
    let hmin := caps.minImageExtent.height
    let hmax := caps.maxImageExtent.height
    let h := if fbHeight < hmin then hmin else if fbHeight > hmin then hmax else fbHeight
    { width := w, height := h }

/-- Image-count selection inside vulkan_swapchain_create, src/main.c lines 481
to 496: fail when the reported minimum alone exceeds MAX_SWAPCHAIN_IMAGES,
otherwise take minimum plus one, clamp down to a nonzero reported maximum, then
clamp down to MAX_SWAPCHAIN_IMAGES. -/
def swapchain_image_count (caps : SurfaceCapabilities) : Option Nat :=
  if caps.minImageCount > MAX_SWAPCHAIN_IMAGES then
    none
  else
    let count1 := caps.minImageCount + 1
    let count2 :=
      if caps.maxImageCount > 0 ∧ count1 > caps.maxImageCount then caps.maxImageCount
      else count1
    let count3 := if count2 > MAX_SWAPCHAIN_IMAGES then MAX_SWAPCHAIN_IMAGES else count2
    some count3

structure DeviceQueueCreateInfo where
  queueFamilyIndex : Nat
  queueCount : Nat
deriving DecidableEq

/-- The queue-creation descriptors built by vulkan_device_create, src/main.c
lines 290 to 314: an array of two descriptors whose submitted length collapses
to one when the two queue family indices coincide. -/
def device_queue_create_infos (graphicsIndex presentIndex : Nat) :
    List DeviceQueueCreateInfo :=
  let infos : List DeviceQueueCreateInfo :=
    [{ queueFamilyIndex := graphicsIndex, queueCount := 1 },
     { queueFamilyIndex := presentIndex, queueCount := 1 }]
  if graphicsIndex = presentIndex then infos.take 1 else infos

inductive SharingMode where
  | exclusive
  | concurrent
deriving DecidableEq

/-- The sharing fields of VkSwapchainCreateInfoKHR as filled by
vulkan_swapchain_create, src/main.c lines 498 to 531. -/
structure SwapchainSharingInfo where
  imageSharingMode : SharingMode
  queueFamilyIndices : List Nat
deriving DecidableEq

/-- queue_family_indices_count of vulkan_swapchain_create, src/main.c lines 502
to 509: two indices, collapsed to one when they coincide. -/
def swapchain_queue_family_indices_count (graphicsIndex presentIndex : Nat) : Nat :=
  if graphicsIndex = presentIndex then 1 else 2

/-- The sharing-mode fields of the swapchain create info, src/main.c lines 511
to 531: exclusive with no index list by default, switched to concurrent with
both indices when the collapsed count exceeds one. -/
def swapchain_sharing_info (graphicsIndex presentIndex : Nat) : SwapchainSharingInfo :=
  if swapchain_queue_family_indices_count graphicsIndex presentIndex > 1 then
    { imageSharingMode := SharingMode.concurrent,
      queueFamilyIndices := [graphicsIndex, presentIndex] }
  else
    { imageSharingMode := SharingMode.exclusive, queueFamilyIndices := [] }

/-- The bounded enumeration pattern every driver query of the source follows
(for example src/main.c lines 117 to 128 and 217 to 232): query the count,
reject when it exceeds MAX_TMP_BUFFER, then query the full list into the
fixed buffer. -/
def bounded_enumerate {α : Type} (l : List α) : Option (List α) :=
  if l.length > MAX_TMP_BUFFER then none else some l

/-- vulkan_validationlayers_check, src/main.c lines 114 to 144: enumerate the
available layers with the bounded probe, then require every requested layer to
appear among them. -/
def vulkan_validationlayers_check (requested available : List String) : Bool :=
  match bounded_enumerate available with
  | none => false
  | some layers => requested.all (fun r => layers.any (fun a => a == r))

/-- vulkan_physicaldevice_find, src/main.c lines 216 to 237: fail on an empty
report, enumerate with the bounded probe, then select the first device. The
second component models the physicaldevice field of the context struct, which
is written only on success. -/
def vulkan_physicaldevice_find (devices : List Nat) (physicaldevice : Nat) :
    Bool × Nat :=
  if devices.length = 0 then (false, physicaldevice)
  else
    match bounded_enumerate devices with
    | none => (false, physicaldevice)
    | some ds => (true, ds.headD physicaldevice)

/-- The two capability bits of a queue family that vulkan_queuefamily_find
reads: the graphics bit of queueFlags, and the per-family present support
reported against the surface. -/
structure QueueFamily where
  graphicsBit : Bool
  presentSupport : Bool
deriving DecidableEq

/-- The scanning loop shape of vulkan_queuefamily_find, src/main.c lines 259
to 280: walk the enumerated families in order and stop at the first one
satisfying the predicate, returning its index. -/
def scan_first {α : Type} (pred : α → Bool) : List α → Option Nat
  | [] => none
  | x :: rest =>
    if pred x then some 0 else Option.map (fun i => i + 1) (scan_first pred rest)

/-- vulkan_queuefamily_find, src/main.c lines 241 to 283: bounded enumeration
of the families, then two independent first-match scans, one for the graphics
bit and one for present support; the call fails when either scan finds none. -/
def vulkan_queuefamily_find (fams : List QueueFamily) : Option (Nat × Nat) :=
  if fams.length > MAX_TMP_BUFFER then none
  else
    match scan_first (fun f => f.graphicsBit) fams,
          scan_first (fun f => f.presentSupport) fams with
    | some g, some p => some (g, p)
    | _, _ => none

/-- i is the first index of l whose element satisfies pred: the element at i
satisfies it and every earlier element does not. -/
def IsFirstIndex {α : Type} (pred : α → Bool) (l : List α) (i : Nat) : Prop :=
  (∃ x, l.get? i = some x ∧ pred x = true) ∧
  ∀ j, j < i → ∀ x, l.get? j = some x → pred x = false

theorem scan_first_isFirstIndex {α : Type} (pred : α → Bool) (l : List α) (i : Nat)
    (h : scan_first pred l = some i) : IsFirstIndex pred l i := by
  induction l generalizing i with
  | nil => simp [scan_first] at h
  | cons x rest ih =>
    by_cases hx : pred x = true
    · simp [scan_first, hx] at h
      subst h
      exact ⟨⟨x, rfl, hx⟩, fun j hj => absurd hj (Nat.not_lt_zero j)⟩
    · simp only [scan_first, hx, if_neg, Bool.not_eq_true] at h
      rcases Option.map_eq_some'.mp h with ⟨i', hi', hplus⟩
      rcases ih i' hi' with ⟨⟨y, hy, hpy⟩, hfirst⟩
      subst hplus
      refine ⟨⟨y, by simpa using hy, hpy⟩, ?_⟩
      intro j hj z hz
      match j with
      | 0 =>
        simp at hz
        subst hz
        exact Bool.not_eq_true _ |>.mp hx
      | Nat.succ k =>
        exact hfirst k (Nat.lt_of_succ_lt_succ hj) z (by simpa using hz)

theorem scan_first_eq_none {α : Type} (pred : α → Bool) (l : List α)
    (h : ∀ x ∈ l, pred x = false) : scan_first pred l = none := by
  induction l with
  | nil => rfl
  | cons x rest ih =>
    have hx : pred x = false := h x (List.mem_cons_self x rest)
    simp [scan_first, hx, ih fun y hy => h y (List.mem_cons_of_mem x hy)]

/-- A resource event of vulkan_graphicspipeline_create: allocation or free of a
shader file buffer, creation or destruction of a shader module. The boolean
selects the vertex (true) or fragment (false) instance. Free of a null pointer
and destruction of a null handle are no-ops in the source, so they produce no
event. -/
inductive ResourceEvent where
  | allocBuf (vertex : Bool)
  | freeBuf (vertex : Bool)
  | createMod (vertex : Bool)
  | destroyMod (vertex : Bool)
deriving DecidableEq

/-- Outcomes of the six fallible steps of vulkan_graphicspipeline_create: the
two file reads, the two shader module creations, the pipeline layout creation
and the final pipeline creation. -/
structure PipelineSteps where
  vertexReadOk : Bool
  fragmentReadOk : Bool
  vertexModuleOk : Bool
  fragmentModuleOk : Bool
  layoutOk : Bool
  pipelineOk : Bool
deriving DecidableEq

/-- The cleanup block of vulkan_graphicspipeline_create, src/main.c lines 890
to 894: destroy the fragment module, destroy the vertex module, free the
fragment buffer, free the vertex buffer; each call is a no-op on a null
handle or null pointer, so an event appears only for a resource actually
acquired. -/
def pipeline_cleanup_events (vBuf fBuf vMod fMod : Bool) : List ResourceEvent :=
  (if fMod then [ResourceEvent.destroyMod false] else []) ++
  (if vMod then [ResourceEvent.destroyMod true] else []) ++
  (if fBuf then [ResourceEvent.freeBuf false] else []) ++
  (if vBuf then [ResourceEvent.freeBuf true] else [])

/-- vulkan_graphicspipeline_create, src/main.c lines 683 to 897, as a resource
trace: each failing step jumps to the cleanup block, except the final pipeline
creation failure at line 885, which returns false directly without reaching
cleanup. -/
def vulkan_graphicspipeline_create (s : PipelineSteps) : Bool × List ResourceEvent :=
  if !s.vertexReadOk then
    (false, pipeline_cleanup_events false false false false)
  else if !s.fragmentReadOk then
    (false, [ResourceEvent.allocBuf true] ++
      pipeline_cleanup_events true false false false)
  else if !s.vertexModuleOk then
    (false, [ResourceEvent.allocBuf true, ResourceEvent.allocBuf false] ++
      pipeline_cleanup_events true true false false)
  else if !s.fragmentModuleOk then
    (false, [ResourceEvent.allocBuf true, ResourceEvent.allocBuf false,
      ResourceEvent.createMod true] ++
      pipeline_cleanup_events true true true false)
  else if !s.layoutOk then
    (false, [ResourceEvent.allocBuf true, ResourceEvent.allocBuf false,
      ResourceEvent.createMod true, ResourceEvent.createMod false] ++
      pipeline_cleanup_events true true true true)
  else if !s.pipelineOk then
    (false, [ResourceEvent.allocBuf true, ResourceEvent.allocBuf false,
      ResourceEvent.createMod true, ResourceEvent.createMod false])
  else
    (true, [ResourceEvent.allocBuf true, ResourceEvent.allocBuf false,
      ResourceEvent.createMod true, ResourceEvent.createMod false] ++
      pipeline_cleanup_events true true true true)

/-- A trace is balanced when every allocated buffer is freed exactly as often
as it was allocated and every created module is destroyed exactly as often as
it was created. -/
def BalancedTrace (t : List ResourceEvent) : Prop :=
  t.count (ResourceEvent.allocBuf true) = t.count (ResourceEvent.freeBuf true) ∧
  t.count (ResourceEvent.allocBuf false) = t.count (ResourceEvent.freeBuf false) ∧
  t.count (ResourceEvent.createMod true) = t.count (ResourceEvent.destroyMod true) ∧
  t.count (ResourceEvent.createMod false) = t.count (ResourceEvent.destroyMod false)

instance (t : List ResourceEvent) : Decidable (BalancedTrace t) := by
  unfold BalancedTrace
  infer_instance

/-- One host-side step of vulkan_frame_draw. The wait and acquire steps carry
the timeout constant the source passes to the driver. -/
inductive FrameStep where
  | fenceWait (timeout : Nat)
  | fenceReset
  | imageAcquire (timeout : Nat)
  | commandBufferReset
  | record
  | submit
  | present
deriving DecidableEq

/-- Outcomes of the fallible steps of vulkan_frame_draw (the fence wait and
fence reset results are ignored by the source, so they carry no outcome). -/
structure FrameFailures where
  acquireOk : Bool
  resetOk : Bool
  recordOk : Bool
  submitOk : Bool
  presentOk : Bool
deriving DecidableEq

/-- vulkan_frame_draw, src/main.c lines 1095 to 1160, as the trace of steps it
starts: the fence wait with timeout UINT32_MAX and the fence reset run
unconditionally first, then each later step runs only when every earlier step
succeeded; a failing step ends the frame. -/
def vulkan_frame_draw (f : FrameFailures) : Bool × List FrameStep :=
  if !f.acquireOk then
    (false, [FrameStep.fenceWait UINT32_MAX, FrameStep.fenceReset,
      FrameStep.imageAcquire UINT32_MAX])
  else if !f.resetOk then
    (false, [FrameStep.fenceWait UINT32_MAX, FrameStep.fenceReset,
      FrameStep.imageAcquire UINT32_MAX, FrameStep.commandBufferReset])
  else if !f.recordOk then
    (false, [FrameStep.fenceWait UINT32_MAX, FrameStep.fenceReset,
      FrameStep.imageAcquire UINT32_MAX, FrameStep.commandBufferReset,
      FrameStep.record])
  else if !f.submitOk then
    (false, [FrameStep.fenceWait UINT32_MAX, FrameStep.fenceReset,
      FrameStep.imageAcquire UINT32_MAX, FrameStep.commandBufferReset,
      FrameStep.record, FrameStep.submit])
  else if !f.presentOk then
    (false, [FrameStep.fenceWait UINT32_MAX, FrameStep.fenceReset,
      FrameStep.imageAcquire UINT32_MAX, FrameStep.commandBufferReset,
      FrameStep.record, FrameStep.submit, FrameStep.present])
  else
    (true, [FrameStep.fenceWait UINT32_MAX, FrameStep.fenceReset,
      FrameStep.imageAcquire UINT32_MAX, FrameStep.commandBufferReset,
      FrameStep.record, FrameStep.submit, FrameStep.present])

/-- The full step order of one successful frame iteration. -/
def frame_order : List FrameStep :=
  [FrameStep.fenceWait UINT32_MAX, FrameStep.fenceReset,
   FrameStep.imageAcquire UINT32_MAX, FrameStep.commandBufferReset,
   FrameStep.record, FrameStep.submit, FrameStep.present]

/-- A frame-failure record with every step succeeding. -/
def all_frame_steps_ok : FrameFailures :=
  { acquireOk := true, resetOk := true, recordOk := true,
    submitOk := true, presentOk := true }

/-- The destroyable Vulkan objects the initialization chain creates. The
physical device handle is not destroyable and the command buffer is released
with its pool, so neither appears. imageViews, and framebuffers, stand for the
whole per-image arrays, which are created and destroyed as blocks. -/
inductive GpuObject where
  | inst
  | surface
  | device
  | swapchain
  | imageViews
  | renderPass
  | pipelineLayout
  | graphicsPipeline
  | framebuffers
  | commandPool
  | imageAvailableSemaphore
  | renderFinishedSemaphore
  | inFlightFence
deriving DecidableEq

/-- Creation order of the destroyable objects along vulkan_init, src/main.c
lines 1164 to 1231: instance, surface, device, then inside
vulkan_swapchain_create the swapchain, the image views, the render pass, then
inside vulkan_graphicspipeline_create the pipeline layout (line 846) before
the graphics pipeline (line 874), then the framebuffers, the command pool, and
inside vulkan_synchronizationobjects_create (lines 1044 to 1091) the
image-available semaphore, the render-finished semaphore and the in-flight
fence, in that order. -/
def creation_order : List GpuObject :=
  [GpuObject.inst, GpuObject.surface, GpuObject.device, GpuObject.swapchain,
   GpuObject.imageViews, GpuObject.renderPass, GpuObject.pipelineLayout,
   GpuObject.graphicsPipeline, GpuObject.framebuffers, GpuObject.commandPool,
   GpuObject.imageAvailableSemaphore, GpuObject.renderFinishedSemaphore,
   GpuObject.inFlightFence]

/-- Destruction order of application_destroy, src/main.c lines 1291 to 1313,
call for call: image-available semaphore, render-finished semaphore, fence,
command pool, framebuffers, pipeline, pipeline layout, render pass, image
views, swapchain, device, surface, instance. -/
def destruction_order : List GpuObject :=
  [GpuObject.imageAvailableSemaphore, GpuObject.renderFinishedSemaphore,
   GpuObject.inFlightFence, GpuObject.commandPool, GpuObject.framebuffers,
   GpuObject.graphicsPipeline, GpuObject.pipelineLayout, GpuObject.renderPass,
   GpuObject.imageViews, GpuObject.swapchain, GpuObject.device,
   GpuObject.surface, GpuObject.inst]

/-- The three synchronization objects, in their creation order. -/
def sync_objects : List GpuObject :=
  [GpuObject.imageAvailableSemaphore, GpuObject.renderFinishedSemaphore,
   GpuObject.inFlightFence]

/-- Outcomes of the fallible libc calls inside file_read, plus the bytes of the
file: fopen, fseek, ftell, malloc and fread each either succeed or fail. -/
structure FileReadEnv where
  fopenOk : Bool
  fseekOk : Bool
  ftellOk : Bool
  mallocOk : Bool
  freadOk : Bool
  fileBytes : List Nat
deriving DecidableEq

/-- What file_read leaves behind: the returned flag, the values written
through the content and content_size out parameters (none when the parameter
was never written), and how many heap buffers were allocated and freed (free
of a null pointer is a no-op and counts as nothing). -/
structure FileReadOut where
  success : Bool
  content : Option (List Nat)
  contentSize : Option Nat
  buffersAllocated : Nat
  buffersFreed : Nat
deriving DecidableEq

/-- file_read, src/main.c lines 18 to 67: each failing call jumps to the
cleanup label, which frees the read buffer exactly when success was not
reached; the out parameters are written only on the success path, right before
success is set. -/
def file_read (e : FileReadEnv) : FileReadOut :=
  if !e.fopenOk then
    { success := false, content := none, contentSize := none,
      buffersAllocated := 0, buffersFreed := 0 }
  else if !e.fseekOk then
    { success := false, content := none, contentSize := none,
      buffersAllocated := 0, buffersFreed := 0 }
  else if !e.ftellOk then
    { success := false, content := none, contentSize := none,
      buffersAllocated := 0, buffersFreed := 0 }
  else if !e.mallocOk then
    { success := false, content := none, contentSize := none,
      buffersAllocated := 0, buffersFreed := 0 }
  else if !e.freadOk then
    { success := false, content := none, contentSize := none,
      buffersAllocated := 1, buffersFreed := 1 }
  else
    { success := true, content := some e.fileBytes,
      contentSize := some e.fileBytes.length,
      buffersAllocated := 1, buffersFreed := 0 }

/-- Capabilities whose current extent is the undefined sentinel and whose
width and height axes share the bounds 1 and 5. -/
def undefined_extent_caps : SurfaceCapabilities :=
  { currentExtent := { width := UINT32_MAX, height := UINT32_MAX },
    minImageExtent := { width := 1, height := 1 },
    maxImageExtent := { width := 5, height := 5 },
    minImageCount := 0, maxImageCount := 0 }

/-- C1: evidence against the claim that with the undefined current-extent
sentinel the chosen extent is the window size clamped identically on both
axes. With bounds 1 and 5 on both axes and framebuffer size 3 by 3, the code
yields width 3 but height 5: the height branch compares the candidate against
the minimum where the width branch compares against the maximum, so equal
inputs under identical bounds give unequal outputs. -/
theorem swapchain_extent_clamp_asymmetric :
    (swapchain_image_extent undefined_extent_caps 3 3).width = 3 ∧
    (swapchain_image_extent undefined_extent_caps 3 3).height = 5 ∧
    (swapchain_image_extent undefined_extent_caps 3 3).width ≠
      (swapchain_image_extent undefined_extent_caps 3 3).height := by
  refine ⟨rfl, rfl, ?_⟩
  decide

/-- C2: evidence against the claim that every exit path of
vulkan_graphicspipeline_create releases both shader modules and both file
buffers exactly once. When every step succeeds except the final pipeline
creation, the function returns false without reaching the cleanup block: both
buffers stay allocated and both modules stay alive. The cited layout-failure
path, by contrast, is balanced. -/
theorem graphicspipeline_pipelinefail_leaks :
    (vulkan_graphicspipeline_create
      { vertexReadOk := true, fragmentReadOk := true, vertexModuleOk := true,
        fragmentModuleOk := true, layoutOk := true, pipelineOk := false }).1
      = false ∧
    ¬ BalancedTrace (vulkan_graphicspipeline_create
      { vertexReadOk := true, fragmentReadOk := true, vertexModuleOk := true,
        fragmentModuleOk := true, layoutOk := true, pipelineOk := false }).2 ∧
    ((vulkan_graphicspipeline_create
      { vertexReadOk := true, fragmentReadOk := true, vertexModuleOk := true,
        fragmentModuleOk := true, layoutOk := true, pipelineOk := false }).2.count
      (ResourceEvent.createMod true) = 1 ∧
     (vulkan_graphicspipeline_create
      { vertexReadOk := true, fragmentReadOk := true, vertexModuleOk := true,
        fragmentModuleOk := true, layoutOk := true, pipelineOk := false }).2.count
      (ResourceEvent.destroyMod true) = 0 ∧
     (vulkan_graphicspipeline_create
      { vertexReadOk := true, fragmentReadOk := true, vertexModuleOk := true,
        fragmentModuleOk := true, layoutOk := true, pipelineOk := false }).2.count
      (ResourceEvent.allocBuf true) = 1 ∧
     (vulkan_graphicspipeline_create
      { vertexReadOk := true, fragmentReadOk := true, vertexModuleOk := true,
        fragmentModuleOk := true, layoutOk := true, pipelineOk := false }).2.count
      (ResourceEvent.freeBuf true) = 0) ∧
    BalancedTrace (vulkan_graphicspipeline_create
      { vertexReadOk := true, fragmentReadOk := true, vertexModuleOk := true,
        fragmentModuleOk := true, layoutOk := false, pipelineOk := true }).2 := by
  decide

/-- C3: in every frame iteration the fence wait and the fence reset do come
first, before any other step, but the wait is not unbounded: the source passes
UINT32_MAX, not the unbounded sentinel UINT64_MAX, as the uint64_t timeout of
vkWaitForFences, so the blocking is bounded by 4294967295 nanoseconds. -/
theorem frame_fence_wait_finite_timeout (f : FrameFailures) :
    (vulkan_frame_draw f).2.take 2 =
      [FrameStep.fenceWait UINT32_MAX, FrameStep.fenceReset] ∧
    UINT32_MAX = 4294967295 ∧
    UINT32_MAX ≠ UINT64_MAX := by
  obtain ⟨a, r, c, s, p⟩ := f
  cases a <;> cases r <;> cases c <;> cases s <;> cases p <;>
    exact ⟨rfl, rfl, by decide⟩

/-- C4 counterexample: the teardown of application_destroy is not the strict
reverse of the creation order. The in-flight fence is created after the
image-available semaphore, yet it is also destroyed after it, so the
destruction sequence differs from the reversed creation sequence. -/
theorem destruction_order_not_reverse :
    destruction_order ≠ creation_order.reverse ∧
    creation_order.indexOf GpuObject.imageAvailableSemaphore <
      creation_order.indexOf GpuObject.inFlightFence ∧
    destruction_order.indexOf GpuObject.imageAvailableSemaphore <
      destruction_order.indexOf GpuObject.inFlightFence := by
  decide

/-- C4 amended: the teardown destroys the three synchronization objects first,
among themselves in their creation order (image-available semaphore,
render-finished semaphore, fence), and every other object in the strict
reverse of its creation order. -/
theorem destruction_order_reverse_except_sync :
    destruction_order =
      sync_objects ++
        (creation_order.filter (fun o => !(sync_objects.contains o))).reverse ∧
    sync_objects = creation_order.drop 10 := by
  decide

/-- C6: the image-count derivation of vulkan_swapchain_create fails exactly
when the reported minimum exceeds the ten-slot capacity, and otherwise returns
the minimum plus one, clamped by the reported maximum when that maximum is
nonzero and by the ten-slot capacity; in particular the four cited
evaluations hold. -/
theorem swapchain_image_count_spec (ce mn mx : VkExtent2D) (m M : Nat) :
    (swapchain_image_count
      { currentExtent := ce, minImageExtent := mn, maxImageExtent := mx,
        minImageCount := m, maxImageCount := M } =
      if m > MAX_SWAPCHAIN_IMAGES then none
      else some (min (min (m + 1) (if M > 0 then M else m + 1))
        MAX_SWAPCHAIN_IMAGES)) ∧
    swapchain_image_count
      { currentExtent := ce, minImageExtent := mn, maxImageExtent := mx,
        minImageCount := 1, maxImageCount := 0 } = some 2 ∧
    swapchain_image_count
      { currentExtent := ce, minImageExtent := mn, maxImageExtent := mx,
        minImageCount := 2, maxImageCount := 2 } = some 2 ∧
    swapchain_image_count
      { currentExtent := ce, minImageExtent := mn, maxImageExtent := mx,
        minImageCount := 1, maxImageCount := 3 } = some 2 ∧
    swapchain_image_count
      { currentExtent := ce, minImageExtent := mn, maxImageExtent := mx,
        minImageCount := 11, maxImageCount := 0 } = none := by
  refine ⟨?_, rfl, rfl, rfl, rfl⟩
  simp only [swapchain_image_count, MAX_SWAPCHAIN_IMAGES]
  split_ifs <;> simp_all <;> omega

/-- C7: when the graphics and present queue family indices coincide, the
device descriptor lists exactly one queue family, the swapchain index count
collapses to one, and the swapchain uses exclusive sharing with no index
list; when they differ, both descriptors list exactly the two families and
the swapchain uses concurrent sharing. -/
theorem queue_family_collapsing (graphicsIndex presentIndex : Nat) :
    ((device_queue_create_infos graphicsIndex presentIndex).map
        (fun i => i.queueFamilyIndex) =
      if graphicsIndex = presentIndex then [graphicsIndex]
      else [graphicsIndex, presentIndex]) ∧
    (swapchain_queue_family_indices_count graphicsIndex presentIndex =
      if graphicsIndex = presentIndex then 1 else 2) ∧
    ((swapchain_sharing_info graphicsIndex presentIndex).imageSharingMode =
      if graphicsIndex = presentIndex then SharingMode.exclusive
      else SharingMode.concurrent) ∧
    ((swapchain_sharing_info graphicsIndex presentIndex).queueFamilyIndices =
      if graphicsIndex = presentIndex then []
      else [graphicsIndex, presentIndex]) := by
  by_cases h : graphicsIndex = presentIndex <;>
    simp [device_queue_create_infos, swapchain_queue_family_indices_count,
      swapchain_sharing_info, h]

theorem frame_draw_trace_shape (f : FrameFailures) :
    (vulkan_frame_draw f).2 = frame_order.take (vulkan_frame_draw f).2.length ∧
    3 ≤ (vulkan_frame_draw f).2.length ∧
    (vulkan_frame_draw f).2.take 3 =
      [FrameStep.fenceWait UINT32_MAX, FrameStep.fenceReset,
       FrameStep.imageAcquire UINT32_MAX] := by
  obtain ⟨a, r, c, s, p⟩ := f
  cases a <;> cases r <;> cases c <;> cases s <;> cases p <;>
    exact ⟨rfl, by decide, rfl⟩

/-- C5: in every frame iteration the executed steps form a prefix of the fixed
order fence wait, fence reset, image acquire, command-buffer reset, record,
submit, present, so no step starts before every earlier step has run; the
trace always has at least three steps, with the fence wait and fence reset
before the acquire; and in any simulated sequence of frames, every frame trace
opens with the fence wait and fence reset before its acquire. -/
theorem frame_draw_step_ordering (f : FrameFailures) (fs : List FrameFailures)
    (t : List FrameStep)
    (ht : t ∈ fs.map (fun g => (vulkan_frame_draw g).2)) :
    (vulkan_frame_draw f).2 = frame_order.take (vulkan_frame_draw f).2.length ∧
    3 ≤ (vulkan_frame_draw f).2.length ∧
    t = frame_order.take t.length ∧
    t.take 3 = [FrameStep.fenceWait UINT32_MAX, FrameStep.fenceReset,
                FrameStep.imageAcquire UINT32_MAX] := by
  obtain ⟨g, hg, rfl⟩ := List.mem_map.mp ht
  exact ⟨(frame_draw_trace_shape f).1, (frame_draw_trace_shape f).2.1,
    (frame_draw_trace_shape g).1, (frame_draw_trace_shape g).2.2⟩

/-- C5 witness: one simulated frame with every step succeeding exercises the
ordering theorem at a concrete input. -/
theorem frame_draw_step_ordering_witness :
    (vulkan_frame_draw all_frame_steps_ok).2 =
      frame_order.take (vulkan_frame_draw all_frame_steps_ok).2.length ∧
    3 ≤ (vulkan_frame_draw all_frame_steps_ok).2.length ∧
    (vulkan_frame_draw all_frame_steps_ok).2 =
      frame_order.take (vulkan_frame_draw all_frame_steps_ok).2.length ∧
    (vulkan_frame_draw all_frame_steps_ok).2.take 3 =
      [FrameStep.fenceWait UINT32_MAX, FrameStep.fenceReset,
       FrameStep.imageAcquire UINT32_MAX] :=
  frame_draw_step_ordering all_frame_steps_ok [all_frame_steps_ok]
    (vulkan_frame_draw all_frame_steps_ok).2 (by simp)

/-- C8: the bounded enumeration probe returns the full reported list exactly
when its length is within MAX_TMP_BUFFER and fails otherwise; an
over-capacity report makes vulkan_validationlayers_check fail and makes
vulkan_physicaldevice_find fail with the context field untouched, while an
in-capacity report lets the check consult every reported entry and lets the
find select the first reported device. -/
theorem bounded_enumeration_spec (α : Type) (l : List α)
    (requested available : List String) (devices : List Nat)
    (physicaldevice : Nat) :
    (l.length ≤ MAX_TMP_BUFFER → bounded_enumerate l = some l) ∧
    (l.length > MAX_TMP_BUFFER → bounded_enumerate l = none) ∧
    (available.length > MAX_TMP_BUFFER →
      vulkan_validationlayers_check requested available = false) ∧
    (available.length ≤ MAX_TMP_BUFFER →
      vulkan_validationlayers_check requested available =
        requested.all (fun r => available.any (fun a => a == r))) ∧
    (devices.length > MAX_TMP_BUFFER →
      vulkan_physicaldevice_find devices physicaldevice =
        (false, physicaldevice)) ∧
    (devices ≠ [] → devices.length ≤ MAX_TMP_BUFFER →
      vulkan_physicaldevice_find devices physicaldevice =
        (true, devices.headD physicaldevice)) := by
  refine ⟨?_, ?_, ?_, ?_, ?_, ?_⟩
  · intro h
    simp [bounded_enumerate, Nat.not_lt.mpr h]
  · intro h
    simp [bounded_enumerate, h]
  · intro h
    simp [vulkan_validationlayers_check, bounded_enumerate, h]
  · intro h
    simp [vulkan_validationlayers_check, bounded_enumerate, Nat.not_lt.mpr h]
  · intro h
    have hne : devices.length ≠ 0 := by omega
    simp [vulkan_physicaldevice_find, bounded_enumerate, hne, h]
  · intro hne hlen
    have hlen0 : devices.length ≠ 0 := by
      simpa using fun hc => hne (List.length_eq_zero.mp hc)
    simp [vulkan_physicaldevice_find, bounded_enumerate, hlen0,
      Nat.not_lt.mpr hlen]

/-- C8 witness: the probe at concrete reports — a two-entry list passes
through whole, a 300-entry device report is rejected with the context field
untouched, and a two-device report selects the first device. -/
theorem bounded_enumeration_spec_witness :
    bounded_enumerate [0, 1] = some [0, 1] ∧
    vulkan_physicaldevice_find (List.replicate 300 5) 3 = (false, 3) ∧
    vulkan_physicaldevice_find [7, 8] 3 = (true, 7) :=
  ⟨(bounded_enumeration_spec Nat [0, 1] [] [] [] 0).1 (by decide),
   (bounded_enumeration_spec Nat [] [] [] (List.replicate 300 5) 3).2.2.2.2.1
     (by simp only [List.length_replicate]; decide),
   (bounded_enumeration_spec Nat [] [] [] [7, 8] 3).2.2.2.2.2
     (by decide) (by decide)⟩

/-- A queue family table whose first family draws but cannot present and whose
second presents but cannot draw. -/
def demo_queuefamilies : List QueueFamily :=
  [{ graphicsBit := true, presentSupport := false },
   { graphicsBit := false, presentSupport := true }]

/-- C9: when vulkan_queuefamily_find succeeds, the returned graphics index is
the first family in enumeration order advertising draw capability and the
returned present index is, independently, the first family advertising
present support; and whenever either capability is absent from the whole
table, the resolution fails. -/
theorem queuefamily_find_first_indices (fams : List QueueFamily) (g p : Nat)
    (hlen : fams.length ≤ MAX_TMP_BUFFER)
    (h : vulkan_queuefamily_find fams = some (g, p)) :
    IsFirstIndex (fun f => f.graphicsBit) fams g ∧
    IsFirstIndex (fun f => f.presentSupport) fams p ∧
    (∀ l : List QueueFamily,
      ((∀ f ∈ l, f.graphicsBit = false) ∨ (∀ f ∈ l, f.presentSupport = false)) →
      vulkan_queuefamily_find l = none) := by
  refine ⟨?_, ?_, ?_⟩
  · rw [vulkan_queuefamily_find, if_neg (by omega)] at h
    rcases hg : scan_first (fun f => f.graphicsBit) fams with _ | g'
    · simp [hg] at h
    rcases hp : scan_first (fun f => f.presentSupport) fams with _ | p'
    · simp [hg, hp] at h
    simp [hg, hp] at h
    exact h.1 ▸ scan_first_isFirstIndex _ fams g' hg
  · rw [vulkan_queuefamily_find, if_neg (by omega)] at h
    rcases hg : scan_first (fun f => f.graphicsBit) fams with _ | g'
    · simp [hg] at h
    rcases hp : scan_first (fun f => f.presentSupport) fams with _ | p'
    · simp [hg, hp] at h
    simp [hg, hp] at h
    exact h.2 ▸ scan_first_isFirstIndex _ fams p' hp
  · intro l hl
    rw [vulkan_queuefamily_find]
    split
    · rfl
    rcases hl with hl | hl
    · rw [scan_first_eq_none _ l hl]
    · rw [scan_first_eq_none (fun f => f.presentSupport) l hl]
      cases scan_first (fun f => f.graphicsBit) l <;> rfl

/-- C9 witness: on the two-family demo table the resolution returns graphics
index 0 and present index 1, each the first family with its capability; the
two scans are independent and the indices differ. -/
theorem queuefamily_find_first_indices_witness :
    IsFirstIndex (fun f => f.graphicsBit) demo_queuefamilies 0 ∧
    IsFirstIndex (fun f => f.presentSupport) demo_queuefamilies 1 :=
  ⟨(queuefamily_find_first_indices demo_queuefamilies 0 1 (by decide)
      (by decide)).1,
   (queuefamily_find_first_indices demo_queuefamilies 0 1 (by decide)
      (by decide)).2.1⟩

/-- C10: file_read writes its two out parameters exactly on the success path,
where the content is the bytes of the file and the size their count, with the
one allocated buffer handed to the caller unfreed; on every failure path
neither out parameter is written and every buffer the call allocated has been
freed, never twice. -/
theorem file_read_spec (e : FileReadEnv) :
    (file_read e).content =
      (if (file_read e).success then some e.fileBytes else none) ∧
    (file_read e).contentSize =
      (if (file_read e).success then some e.fileBytes.length else none) ∧
    (file_read e).buffersAllocated =
      (if (file_read e).success then 1 else (file_read e).buffersFreed) ∧
    (file_read e).buffersFreed =
      (if (file_read e).success then 0 else (file_read e).buffersFreed) ∧
    (file_read e).buffersAllocated ≤ 1 := by
  obtain ⟨o1, o2, o3, o4, o5, bytes⟩ := e
  cases o1 <;> cases o2 <;> cases o3 <;> cases o4 <;> cases o5 <;>
    simp [file_read]

end VulkanTest
